import Mathlib

/-!
Verification of the BaseMountRetrieve resolution layer.

A shallow embedding of `BaseMountRetrieve/basemountretrieve.py` (the current
revision, dataclasses `BaseMountSample`, `BaseMountRun`, `BaseMountProject`
and the module-level retrieval/copy functions) together with the one function
of `BaseMountRetrieve/basemountretrieve_v2.py` that a claim cites
(`BasemountRun.get_sample_id_dict`).

The mounted filesystem is modelled as a finite structure `FS`: a list of
regular files (each with its text content as a list of lines) plus a list of
directories.  Paths are lists of components.  Python exceptions are modelled
with `Except PyErr`; file-copy side effects are modelled as explicit lists of
`CopyOp` records, and directory/file creation as pure `FS` updates.
-/

/-- A filesystem path, as its list of components. -/
abbrev FPath := List String

/-- `p / s` in `pathlib`: append one component. -/
def FPath.child (p : FPath) (s : String) : FPath := p ++ [s]

/-- `Path.name`: the final component (empty for the root). -/
def FPath.name (p : FPath) : String := p.getLastD ""

/-- `Path.parent`: drop the final component. -/
def FPath.parent (p : FPath) : FPath := p.dropLast

/-- Does `hay` start with `needle` (on character lists)? -/
def charsStartWith : List Char → List Char → Bool
  | _, [] => true
  | [], _ :: _ => false
  | h :: hs, n :: ns => h == n && charsStartWith hs ns

/-- Does `needle` occur contiguously inside the character list? -/
def charsContain (needle : List Char) : List Char → Bool
  | [] => needle.isEmpty
  | c :: hs => charsStartWith (c :: hs) needle || charsContain needle hs

/-- Python `needle in hay` on strings: substring containment. -/
def strContains (hay needle : String) : Bool := charsContain needle.data hay.data

/-- Does the string start with the given literal? -/
def strStartsWith (s pre : String) : Bool := charsStartWith s.data pre.data

/-- Split a character list on a separator character (`str.split(sep)`:
    every occurrence splits, empty fields kept). -/
def splitChar (c : Char) : List Char → List (List Char)
  | [] => [[]]
  | a :: rest =>
    if a == c then [] :: splitChar c rest
    else
      match splitChar c rest with
      | [] => [[a]]
      | h :: t => (a :: h) :: t

/-- Python `s.split(c)` for a one-character separator. -/
def pySplitOn (s : String) (c : Char) : List String :=
  (splitChar c s.data).map (fun l => ⟨l⟩)

/-- Join fields back with the separator character. -/
def joinWithChar (c : Char) : List (List Char) → List Char
  | [] => []
  | [l] => l
  | l :: rest => l ++ c :: joinWithChar c rest

/-- Python `s.split(c, maxsplit)`: at most `maxsplit` splits, the remainder
    (separators included) becoming the last field. -/
def pySplit (s : String) (c : Char) (maxsplit : Nat) : List String :=
  let parts := splitChar c s.data
  if parts.length ≤ maxsplit + 1 then parts.map (fun l => ⟨l⟩)
  else (parts.take maxsplit).map (fun l => (⟨l⟩ : String)) ++
    [⟨joinWithChar c (parts.drop maxsplit)⟩]

/-- Python whitespace (`str.strip()` default set, ASCII part). -/
def isSpaceChar (c : Char) : Bool :=
  c == ' ' || c == '\t' || c == '\n' || c == '\r' || c == '\x0b' || c == '\x0c'

/-- Drop leading whitespace characters. -/
def dropLeadingSpace : List Char → List Char
  | [] => []
  | c :: rest => if isSpaceChar c then dropLeadingSpace rest else c :: rest

/-- Python `s.strip()`. -/
def pyStrip (s : String) : String :=
  ⟨(dropLeadingSpace ((dropLeadingSpace s.data).reverse)).reverse⟩

/-- A snapshot of the mounted filesystem: regular files (with their line
    contents) and directories. -/
structure FS where
  files : List (FPath × List String)
  dirs : List FPath
deriving Repr, DecidableEq

/-- `Path.is_file()`. -/
def FS.isFile (fs : FS) (p : FPath) : Bool := (fs.files.map Prod.fst).contains p

/-- `Path.is_dir()`. -/
def FS.isDir (fs : FS) (p : FPath) : Bool := fs.dirs.contains p

/-- `Path.exists()`: a regular file or a directory. -/
def FS.pathExists (fs : FS) (p : FPath) : Bool := fs.isFile p || fs.isDir p

/-- The lines of a file (`open(p).readlines()`, newline-stripped). -/
def FS.readLines (fs : FS) (p : FPath) : List String := (fs.files.lookup p).getD []

/-- All entries of the filesystem, files first. -/
def FS.entries (fs : FS) : List FPath := fs.files.map Prod.fst ++ fs.dirs

/-- `dir.glob(pattern)`: the direct children of `dir` whose name satisfies the
    pattern (each call site instantiates the concrete pattern predicate). -/
def FS.glob (fs : FS) (dir : FPath) (matchName : String → Bool) : List FPath :=
  fs.entries.filter (fun p => p.parent == dir && matchName p.name)

/-- The Python exceptions the embedded code can raise. -/
inductive PyErr
  | fileNotFound (msg : String)
  | exception (msg : String)
  | indexError
  | keyError (k : String)
  | attributeError (a : String)
  | isADirectory
deriving Repr, DecidableEq

deriving instance DecidableEq for Except

/-! ## `BaseMountRun.get_samplesheet`, `get_runinfoxml`, `get_runparametersxml` -/

/-- The ordered candidate list of `get_samplesheet`
    (`possible_samplesheet_locations`, basemountretrieve.py:402-406). -/
def possible_samplesheet_locations (run_dir : FPath) : List FPath :=
  let properties_dir := run_dir.child "Properties"
  [ properties_dir.child "Input.sample-sheet",
    (properties_dir.parent.child "Files").child "SampleSheet.csv",
    ((((((properties_dir.child "Input.Libraries").child "0").child
        "Properties").child "Output.Runs").child "0").child "Files").child "SampleSheet.csv" ]

/-- The `for samplesheet in possible_samplesheet_locations: if samplesheet.is_file(): return`
    loop: first candidate that is a regular file. -/
def firstFile (fs : FS) : List FPath → Option FPath
  | [] => none
  | p :: rest => if fs.isFile p then some p else firstFile fs rest

/-- `BaseMountRun.get_samplesheet` (basemountretrieve.py:398-414): first
    existing candidate, else `FileNotFoundError`. -/
def get_samplesheet (fs : FS) (run_dir : FPath) : Except PyErr FPath :=
  match firstFile fs (possible_samplesheet_locations run_dir) with
  | some p => .ok p
  | none => .error (.fileNotFound "Could not find SampleSheet in any of the expected locations!")

/-- The three candidate locations of `get_runinfoxml` in source order. -/
def runinfo_locations (run_dir : FPath) : List FPath :=
  let properties_dir := run_dir.child "Properties"
  [ ((((properties_dir.child "Input.Runs").child "0").child "Files").child "RunInfo.xml"),
    (run_dir.child "Logs").child "RunInfo.xml",
    (run_dir.child "Files").child "RunInfo.xml" ]

/-- `BaseMountRun.get_runinfoxml` (basemountretrieve.py:467-484): the
    `if/elif/elif/else` chain over the three known locations, `None` when all
    are missing. -/
def get_runinfoxml (fs : FS) (run_dir : FPath) : Option FPath :=
  let properties_dir := run_dir.child "Properties"
  let runinfoxml_1 := (((properties_dir.child "Input.Runs").child "0").child "Files").child "RunInfo.xml"
  let runinfoxml_2 := (run_dir.child "Logs").child "RunInfo.xml"
  let runinfoxml_3 := (run_dir.child "Files").child "RunInfo.xml"
  if fs.isFile runinfoxml_1 then some runinfoxml_1
  else if fs.isFile runinfoxml_2 then some runinfoxml_2
  else if fs.isFile runinfoxml_3 then some runinfoxml_3
  else none

/-- `BaseMountRun.get_runparametersxml` (basemountretrieve.py:452-465). -/
def get_runparametersxml (fs : FS) (run_dir : FPath) : Option FPath :=
  let properties_dir := run_dir.child "Properties"
  let runparametersxml_1 := (((properties_dir.child "Input.Runs").child "0").child "Files").child "RunParameters.xml"
  let runparametersxml_2 := (run_dir.child "Files").child "RunParameters.xml"
  if fs.isFile runparametersxml_1 then some runparametersxml_1
  else if fs.isFile runparametersxml_2 then some runparametersxml_2
  else none

/-! ## `BaseMountRun.extract_experiment_name` -/

/-- `BaseMountRun.extract_experiment_name` (basemountretrieve.py:503-519):
    scans the sample-sheet lines in order; on the first line containing
    `Experiment Name` (or, checked second on the same line, `Description`)
    returns the trimmed second comma field (raising `IndexError` when that
    field does not exist); raises a descriptive `Exception` when no line
    matches. -/
def extract_experiment_name (lines : List String) : Except PyErr String :=
  match lines with
  | [] => .error (.exception "Could not find Experiment Name in samplesheet")
  | line :: rest =>
    if strContains line "Experiment Name" then
      match (pySplitOn line ',').get? 1 with
      | some f => .ok (pyStrip f)
      | none => .error .indexError
    else if strContains line "Description" then
      match (pySplitOn line ',').get? 1 with
      | some f => .ok (pyStrip f)
      | none => .error .indexError
    else extract_experiment_name rest

/-! ## `BaseMountRun.parse_samplesheet` and the declared sample ids -/

/-- The `counter` loop of `parse_samplesheet` (basemountretrieve.py:493-499):
    `counter` starts at 1 and is incremented for every line before the first
    line containing `[Data]`. -/
def skiprowsAux : List String → Nat → Nat
  | [], counter => counter
  | line :: rest, counter =>
    if strContains line "[Data]" then counter else skiprowsAux rest (counter + 1)

/-- The `skiprows` value passed to `pd.read_csv` by `parse_samplesheet`. -/
def samplesheet_skiprows (lines : List String) : Nat := skiprowsAux lines 1

/-- The tabular result of `pd.read_csv`: a header row and data rows. -/
structure DataFrame where
  header : List String
  rows : List (List String)
deriving Repr, DecidableEq

/-- `pd.read_csv(path, sep=",", index_col=False, skiprows=n)`: drop the first
    `n` lines, the next line is the column header, the rest are data rows
    (comma-split; the body CSV dialect itself is an external collaborator of
    the resolution layer). -/
def read_csv (lines : List String) (skiprows : Nat) : DataFrame :=
  match lines.drop skiprows with
  | [] => ⟨[], []⟩
  | h :: rest => ⟨pySplitOn h ',', rest.map (fun r => pySplitOn r ',')⟩

/-- `BaseMountRun.parse_samplesheet` (basemountretrieve.py:486-501). -/
def parse_samplesheet (fs : FS) (samplesheet : FPath) : DataFrame :=
  let lines := fs.readLines samplesheet
  read_csv lines (samplesheet_skiprows lines)

/-- `df[name].tolist()`: the named column, `KeyError` when absent. -/
def DataFrame.column (df : DataFrame) (name : String) : Except PyErr (List String) :=
  match df.header.indexOf? name with
  | some i => .ok (df.rows.map (fun r => r.getD i ""))
  | none => .error (.keyError name)

/-! ## `BaseMountRun.get_sample_dirs`, `get_sample_id_dict` -/

/-- `BaseMountRun.get_sample_dirs` (basemountretrieve.py:431-450): glob
    `Sample.*` under the run directory; when empty, fall back to the entries
    of `Properties/Output.Samples` holding a `SampleProperties` record; then
    drop `Undetermined` entries and non-directories. -/
def get_sample_dirs (fs : FS) (run_dir : FPath) : List FPath :=
  let sample_dirs := fs.glob run_dir (fun n => strStartsWith n "Sample.")
  let sample_dirs :=
    if sample_dirs.length == 0 then
      let unfiltered := fs.glob ((run_dir.child "Properties").child "Output.Samples") (fun _ => true)
      unfiltered.filter (fun d => fs.pathExists (d.child "SampleProperties"))
    else sample_dirs
  let sample_dirs := sample_dirs.filter (fun d => !(strContains d.name "Undetermined"))
  sample_dirs.filter (fun d => fs.isDir d)

/-- The value attached to a key of `sample_id_dict`
    (`{'sample_dir': ..., 'sample_name': ...}`). -/
structure SampleMeta where
  sample_dir : FPath
  sample_name : Option String
deriving Repr, DecidableEq

/-- One line of the `SampleProperties` scan in `get_sample_id_dict`
    (basemountretrieve.py:381-387): `'Name:' in line` sets the name from
    `line.split(" ", 1)[1].strip()`, `'SampleId:' in line` sets the id;
    a matching line with no space raises `IndexError`.  The accumulator is
    `(sample_id, sample_name)`. -/
def propsLineStep (acc : Option String × Option String) (line : String) :
    Except PyErr (Option String × Option String) :=
  if strContains line "Name:" then
    match (pySplit line ' ' 1).get? 1 with
    | some t => .ok (acc.1, some (pyStrip t))
    | none => .error .indexError
  else if strContains line "SampleId:" then
    match (pySplit line ' ' 1).get? 1 with
    | some t => .ok (some (pyStrip t), acc.2)
    | none => .error .indexError
  else .ok acc

/-- Python-`dict` insertion: an existing key keeps its position and gets the
    new value, a new key is appended. -/
def dictInsert {α β : Type} [BEq α] (d : List (α × β)) (k : α) (v : β) : List (α × β) :=
  if d.any (fun e => e.1 == k) then d.map (fun e => if e.1 == k then (k, v) else e)
  else d ++ [(k, v)]

/-- `BaseMountRun.get_sample_id_dict` (basemountretrieve.py:369-396): for each
    sample directory, parse `SampleProperties` when it exists (the id and name
    stay `None` otherwise) and store `sample_id -> {sample_dir, sample_name}`. -/
def get_sample_id_dict (fs : FS) (sample_dirs : List FPath) :
    Except PyErr (List (Option String × SampleMeta)) :=
  sample_dirs.foldlM (fun dict sample_dir => do
    let sample_properties := sample_dir.child "SampleProperties"
    let idname ←
      if fs.isFile sample_properties then
        (fs.readLines sample_properties).foldlM propsLineStep (none, none)
      else if fs.isDir sample_properties then
        Except.error PyErr.isADirectory
      else
        pure (none, none)
    pure (dictInsert dict idname.1 ⟨sample_dir, idname.2⟩)) []

/-- `BasemountRun.get_sample_id_dict` of basemountretrieve_v2.py:119-124: the
    id is always `sample_dir.name.split(".", 2)[2]` (an `IndexError` when the
    name has fewer than three dot-components); values are the directories. -/
def get_sample_id_dict_v2 (sample_dirs : List FPath) :
    Except PyErr (List (String × FPath)) :=
  sample_dirs.foldlM (fun dict sample_dir => do
    let sample_id ←
      match (pySplit sample_dir.name '.' 2).get? 2 with
      | some s => pure s
      | none => Except.error PyErr.indexError
    pure (dictInsert dict sample_id sample_dir)) []

/-! ## `BaseMountSample` -/

/-- The `BaseMountSample` dataclass after `__post_init__`
    (basemountretrieve.py:35-80). -/
structure SampleObj where
  run_dir : FPath
  sample_dir : FPath
  sample_id : Option String
  sample_name : Option String
  project_dir : Option FPath
  r1 : Option FPath
  r2 : Option FPath
deriving Repr, DecidableEq

/-- `BaseMountSample.validate_fastq_in_sample_dir` (basemountretrieve.py:70-80):
    exactly one `*_R1_*` match, exactly one `*_R2_*` match, both regular files. -/
def validate_fastq_in_sample_dir (fs : FS) (fastq_dir : FPath) : Bool :=
  let r1 := fs.glob fastq_dir (fun n => strContains n "_R1_")
  let r2 := fs.glob fastq_dir (fun n => strContains n "_R2_")
  r1.length == 1 && r2.length == 1 && fs.isFile (r1.headD []) && fs.isFile (r2.headD [])

/-- `BaseMountSample.__post_init__` (basemountretrieve.py:49-60): on a failed
    validation the `AssertionError` is caught, an error is logged and the
    object is kept with `r1 = r2 = None`; otherwise `get_reads` fills both. -/
def mkBaseMountSample (fs : FS) (project_dir : Option FPath) (run_dir sample_dir : FPath)
    (sample_id sample_name : Option String) : SampleObj :=
  let fastq_dir := sample_dir.child "Files"
  if validate_fastq_in_sample_dir fs fastq_dir then
    { run_dir := run_dir, sample_dir := sample_dir, sample_id := sample_id,
      sample_name := sample_name, project_dir := project_dir,
      r1 := (fs.glob fastq_dir (fun n => strContains n "_R1_")).head?,
      r2 := (fs.glob fastq_dir (fun n => strContains n "_R2_")).head? }
  else
    { run_dir := run_dir, sample_dir := sample_dir, sample_id := sample_id,
      sample_name := sample_name, project_dir := project_dir, r1 := none, r2 := none }

/-- `BaseMountRun.generate_sample_objects` (basemountretrieve.py:416-429):
    one `BaseMountSample` per `sample_id_dict` entry, appended unconditionally. -/
def generate_sample_objects (fs : FS) (project_dir : Option FPath) (run_dir : FPath)
    (sample_id_dict : List (Option String × SampleMeta)) : List SampleObj :=
  sample_id_dict.map (fun e => mkBaseMountSample fs project_dir run_dir e.2.sample_dir e.1 e.2.sample_name)

/-! ## `BaseMountRun.__post_init__` -/

/-- `BaseMountRun.get_log_dir` fallback scan (basemountretrieve.py:319-323):
    the first sample folder owning a `ParentAppSession/Logs` directory. -/
def findParentAppLogs (fs : FS) : List FPath → Option FPath
  | [] => none
  | folder :: rest =>
    let d := (folder.child "ParentAppSession").child "Logs"
    if fs.isDir d then some d else findParentAppLogs fs rest

/-- `BaseMountRun.get_log_dir` (basemountretrieve.py:306-325). -/
def get_log_dir (fs : FS) (run_dir : FPath) : Option FPath :=
  let log_dir := run_dir.child "Logs"
  if fs.pathExists log_dir then some log_dir
  else
    let samples_dir := (run_dir.child "Properties").child "Output.Samples"
    findParentAppLogs fs (fs.glob samples_dir (fun _ => true))

/-- `BaseMountRun.get_interop_dir` (basemountretrieve.py:357-367). -/
def get_interop_dir (fs : FS) (run_dir : FPath) : Option FPath :=
  let interop_dir := (run_dir.child "Files").child "InterOp"
  if fs.isDir interop_dir then some interop_dir else none

/-- `BaseMountRun.get_interop_files` (basemountretrieve.py:327-334). -/
def get_interop_files (fs : FS) (interop_dir : FPath) : List FPath :=
  let interop_files := fs.glob interop_dir (fun _ => true)
  let interop_files := interop_files.filter (fun f => fs.isFile f)
  interop_files.filter (fun f => !(strStartsWith f.name "."))

/-- `BaseMountRun.get_log_files` (basemountretrieve.py:336-345). -/
def get_log_files (fs : FS) (log_dir : Option FPath) : List FPath :=
  match log_dir with
  | none => []
  | some d => (fs.glob d (fun _ => true)).filter (fun f => !(strStartsWith f.name "."))

/-- `BaseMountRun.get_stats_json` (basemountretrieve.py:347-355). -/
def get_stats_json (fs : FS) (log_dir : FPath) : Option FPath :=
  let stats_json := log_dir.child "Stats.json"
  if fs.pathExists stats_json then some stats_json else none

/-- The `Discrepancy` computation of `__post_init__`
    (basemountretrieve.py:290): `set(resolved) - set(declared)`. -/
def reconcile {α : Type} [DecidableEq α] (resolved declared : Finset α) : Finset α :=
  resolved \ declared

/-- The `BaseMountRun` dataclass after `__post_init__`.  `logfiles = none`
    models the attribute having never been assigned (it is only set when a
    log directory was found). -/
structure RunObj where
  run_dir : FPath
  project_dir : Option FPath
  run_id : String
  log_dir : Option FPath
  samplesheet : FPath
  experiment_name : String
  samplesheet_df : DataFrame
  samplesheet_samples : List String
  interop_dir : Option FPath
  interop_files : Option (List FPath)
  sample_dirs : List FPath
  sample_id_dict : List (Option String × SampleMeta)
  sample_objects : List SampleObj
  difference_list : Finset (Option String)
  runinfoxml : Option FPath
  runparametersxml : Option FPath
  stats_json : Option FPath
  logfiles : Option (List FPath)
deriving DecidableEq

/-- `BaseMountRun.__post_init__` (basemountretrieve.py:257-304), in source
    order; the first raised exception propagates (written as an explicit
    match chain over the fallible steps). -/
def mkRun (fs : FS) (run_dir : FPath) (project_dir : Option FPath)
    (experiment_name_arg : Option String) : Except PyErr RunObj :=
  let run_id := run_dir.name
  let log_dir := get_log_dir fs run_dir
  match get_samplesheet fs run_dir with
  | .error e => .error e
  | .ok samplesheet =>
    match (match experiment_name_arg with
           | some e => Except.ok e
           | none => extract_experiment_name (fs.readLines samplesheet)) with
    | .error e => .error e
    | .ok experiment_name =>
      let samplesheet_df := parse_samplesheet fs samplesheet
      match samplesheet_df.column "Sample_ID" with
      | .error e => .error e
      | .ok samplesheet_samples =>
        let interop_dir := get_interop_dir fs run_dir
        let interop_files := interop_dir.map (fun d => get_interop_files fs d)
        let sample_dirs := get_sample_dirs fs run_dir
        match get_sample_id_dict fs sample_dirs with
        | .error e => .error e
        | .ok sample_id_dict =>
          let sample_objects := generate_sample_objects fs project_dir run_dir sample_id_dict
          let difference_list :=
            reconcile (sample_objects.map (fun s => s.sample_id)).toFinset
              (samplesheet_samples.map some).toFinset
          let runinfoxml := get_runinfoxml fs run_dir
          let runparametersxml := get_runparametersxml fs run_dir
          let stats_json := match log_dir with | some d => get_stats_json fs d | none => none
          let logfiles := match log_dir with | some d => some (get_log_files fs (some d)) | none => none
          .ok { run_dir := run_dir, project_dir := project_dir, run_id := run_id, log_dir := log_dir,
                samplesheet := samplesheet, experiment_name := experiment_name,
                samplesheet_df := samplesheet_df, samplesheet_samples := samplesheet_samples,
                interop_dir := interop_dir, interop_files := interop_files,
                sample_dirs := sample_dirs, sample_id_dict := sample_id_dict,
                sample_objects := sample_objects, difference_list := difference_list,
                runinfoxml := runinfoxml, runparametersxml := runparametersxml,
                stats_json := stats_json, logfiles := logfiles }

/-! ## The copy/materialization pipeline -/

/-- One performed `shutil.copy(src, dst)`. -/
structure CopyOp where
  src : FPath
  dst : FPath
deriving Repr, DecidableEq

/-- `shutil.copy(str(src), str(dst))`: raises `FileNotFoundError` for a
    missing source and `IsADirectoryError` for a directory source. -/
def shutil_copy (fs : FS) (src dst : FPath) : Except PyErr (List CopyOp) :=
  if fs.isFile src then .ok [⟨src, dst⟩]
  else if fs.isDir src then .error .isADirectory
  else .error (.fileNotFound "shutil.copy")

/-- `shutil_if_exists` (basemountretrieve.py:623-631): `shutil.copy` with
    `FileNotFoundError` swallowed (a `None` source becomes the missing path
    `str(None)` and is likewise swallowed). -/
def shutil_if_exists (fs : FS) (src : Option FPath) (dst : FPath) : Except PyErr (List CopyOp) :=
  match src with
  | none => .ok []
  | some s =>
    match shutil_copy fs s dst with
    | .ok ops => .ok ops
    | .error (.fileNotFound _) => .ok []
    | .error e => .error e

/-- `copy_metadata_files` (basemountretrieve.py:634-642): the fixed
    `(src, dst)` table — sample sheet, run-info, stats JSON. -/
def copy_metadata_files (fs : FS) (run_obj : RunObj) (out_dir : FPath) :
    Except PyErr (List CopyOp) :=
  match shutil_if_exists fs (some run_obj.samplesheet) (out_dir.child "SampleSheet.csv") with
  | .error e => .error e
  | .ok a =>
    match shutil_if_exists fs run_obj.runinfoxml (out_dir.child "RunInfo.xml") with
    | .error e => .error e
    | .ok b =>
      match shutil_if_exists fs run_obj.stats_json (out_dir.child "Stats.json") with
      | .error e => .error e
      | .ok c => .ok (a ++ b ++ c)

/-- `copy_log_files` (basemountretrieve.py:653-657): an unguarded access of
    `run_obj.logfiles` (an `AttributeError` when the attribute was never set)
    followed by one plain `shutil.copy` per log file into `Logs/`. -/
def copy_log_files (fs : FS) (run_obj : RunObj) (out_dir : FPath) :
    Except PyErr (List CopyOp) :=
  match run_obj.logfiles with
  | none => .error (.attributeError "logfiles")
  | some logs =>
    logs.foldlM (fun acc logfile => do
      let ops ← shutil_copy fs logfile ((out_dir.child "Logs").child logfile.name)
      pure (acc ++ ops)) []

/-- `copy_interop_files` (basemountretrieve.py:660-669): skipped when
    `interop_files is None`, otherwise one copy per file into `InterOp/`,
    names preserved. -/
def copy_interop_files (fs : FS) (interop_files : Option (List FPath)) (out_dir : FPath) :
    Except PyErr (List CopyOp) :=
  match interop_files with
  | none => .ok []
  | some files =>
    files.foldlM (fun acc interop_file => do
      let ops ← shutil_copy fs interop_file ((out_dir.child "InterOp").child interop_file.name)
      pure (acc ++ ops)) []

/-- `copy_reads` (basemountretrieve.py:713-726): for each sample object, copy
    `r1`/`r2` into `Data/Intensities/BaseCalls`, renamed to
    `{sample_id}_R{1,2}.fastq.gz` under `rename`.  A `None` id under `rename`
    raises `TypeError`-like failure; without `rename` a `None` read raises on
    the `.name` access; `str(None)` as a copy source raises
    `FileNotFoundError`. -/
def copy_reads (fs : FS) (run_obj : RunObj) (out_dir : FPath) (rename : Bool) :
    Except PyErr (List CopyOp) :=
  run_obj.sample_objects.foldlM (fun acc sample_obj => do
    let basecalls := ((out_dir.child "Data").child "Intensities").child "BaseCalls"
    let outs : Except PyErr (FPath × FPath) :=
      if rename then
        match sample_obj.sample_id with
        | some sid => .ok (basecalls.child (sid ++ "_R1.fastq.gz"), basecalls.child (sid ++ "_R2.fastq.gz"))
        | none => .error (.exception "TypeError: unsupported operand")
      else
        match sample_obj.r1, sample_obj.r2 with
        | some r1, some r2 => .ok (basecalls.child r1.name, basecalls.child r2.name)
        | _, _ => .error (.attributeError "name")
    let pair ← outs
    let o1 ←
      match sample_obj.r1 with
      | none => Except.error (PyErr.fileNotFound "None")
      | some r1 => shutil_copy fs r1 pair.1
    let o2 ←
      match sample_obj.r2 with
      | none => Except.error (PyErr.fileNotFound "None")
      | some r2 => shutil_copy fs r2 pair.2
    pure (acc ++ o1 ++ o2)) []

/-- The seven skeleton folders of `create_run_folder_skeleton`
    (basemountretrieve.py:729-743). -/
def skeleton_folders (out_dir : FPath) : List FPath :=
  [ out_dir.child "Config",
    ((out_dir.child "Data").child "Intensities").child "BaseCalls",
    out_dir.child "Images",
    out_dir.child "InterOp",
    out_dir.child "Logs",
    out_dir.child "Recipes",
    out_dir.child "Thumbnail_Images" ]

/-- `mkdir(parents=True, exist_ok=True)` effects: register the directories. -/
def FS.addDirs (fs : FS) (ds : List FPath) : FS :=
  { fs with dirs := fs.dirs ++ ds }

/-- Register the destination of every performed copy as a new file, with the
    source's content. -/
def FS.addFiles (fs : FS) (ops : List CopyOp) : FS :=
  { fs with files := fs.files ++ ops.map (fun op => (op.dst, fs.readLines op.src)) }

/-- `create_run_folder_skeleton` (basemountretrieve.py:729-743): `out_dir`
    itself, the intermediate `Data`/`Data/Intensities` levels, and the seven
    skeleton folders. -/
def create_run_folder_skeleton (fs : FS) (out_dir : FPath) : FS :=
  fs.addDirs (out_dir :: (out_dir.child "Data") ::
    ((out_dir.child "Data").child "Intensities") :: skeleton_folders out_dir)

/-- `BaseMountProject.get_runs_dirs` (basemountretrieve.py:545-550):
    `AppSessions.v1` entries matching `FASTQ*`. -/
def get_runs_dirs (fs : FS) (project_dir : FPath) : List FPath :=
  fs.glob (project_dir.child "AppSessions.v1") (fun n => strStartsWith n "FASTQ")

/-- The body of the `generate_run_objects` loop: construct one
    `BaseMountRun` and append it. -/
def generate_run_step (fs : FS) (project_dir : FPath) (acc : List RunObj) (run_dir : FPath) :
    Except PyErr (List RunObj) :=
  match mkRun fs run_dir (some project_dir) none with
  | .error e => .error e
  | .ok run_object => .ok (acc ++ [run_object])

/-- `BaseMountProject.generate_run_objects` (basemountretrieve.py:535-543):
    construct a `BaseMountRun` per run directory, in order, with no exception
    handling — the first constructor failure propagates. -/
def generate_run_objects (fs : FS) (project_dir : FPath) (run_dirs : List FPath) :
    Except PyErr (List RunObj) :=
  run_dirs.foldlM (generate_run_step fs project_dir) []

/-- One iteration of the `retrieve_project_contents_from_basemount` loop
    (basemountretrieve.py:605-620): skip when `out_dir / run_id` exists,
    otherwise build the skeleton and perform the four copy passes. -/
def process_run (fs : FS) (run_obj : RunObj) (out_dir : FPath) (rename : Bool) :
    Except PyErr (FS × List CopyOp) :=
  let run_dir_out := out_dir.child run_obj.run_id
  if fs.pathExists run_dir_out then .ok (fs, [])
  else
    let fs2 := create_run_folder_skeleton fs run_dir_out
    match copy_metadata_files fs2 run_obj run_dir_out with
    | .error e => .error e
    | .ok m =>
      match copy_log_files fs2 run_obj run_dir_out with
      | .error e => .error e
      | .ok l =>
        match copy_interop_files fs2 run_obj.interop_files run_dir_out with
        | .error e => .error e
        | .ok i =>
          match copy_reads fs2 run_obj run_dir_out rename with
          | .error e => .error e
          | .ok r => .ok (fs2.addFiles (m ++ l ++ i ++ r), m ++ l ++ i ++ r)

/-- The body of the project loop: one `process_run` on the threaded
    filesystem, its copies appended to the accumulated trace. -/
def process_step (out_dir : FPath) (rename : Bool) (st : FS × List CopyOp) (run_obj : RunObj) :
    Except PyErr (FS × List CopyOp) :=
  match process_run st.1 run_obj out_dir rename with
  | .error e => .error e
  | .ok step => .ok (step.1, st.2 ++ step.2)

/-- The `for run_obj in project.run_objects` loop, threading the filesystem
    state and accumulating the copies performed. -/
def process_runs (fs : FS) (runs : List RunObj) (out_dir : FPath) (rename : Bool) :
    Except PyErr (FS × List CopyOp) :=
  runs.foldlM (process_step out_dir rename) (fs, [])

/-- `retrieve_project_contents_from_basemount` (basemountretrieve.py:595-620). -/
def retrieve_project_contents_from_basemount (fs : FS) (project_dir out_dir : FPath)
    (rename : Bool) : Except PyErr (FS × List CopyOp) :=
  let fs1 := fs.addDirs [out_dir]
  let run_dirs := get_runs_dirs fs1 project_dir
  match generate_run_objects fs1 project_dir run_dirs with
  | .error e => .error e
  | .ok runs => process_runs fs1 runs out_dir rename

/-- `retrieve_experiment_contents_from_basemount` (basemountretrieve.py:573-592):
    the single-Run entry point — create `out_dir`, validate the run directory,
    construct the Run with `experiment_name = run_dir.name`, then build the
    skeleton and run the four copy passes with no already-materialized check. -/
def retrieve_experiment_contents_from_basemount (fs : FS) (run_dir out_dir : FPath)
    (rename : Bool) : Except PyErr (FS × List CopyOp) :=
  let fs1 := fs.addDirs [out_dir]
  if !(fs1.pathExists run_dir) then
    .error (.fileNotFound "Directory does not exist! Quitting.")
  else
    match mkRun fs1 run_dir none (some run_dir.name) with
    | .error e => .error e
    | .ok run_obj =>
      let fs2 := create_run_folder_skeleton fs1 out_dir
      match copy_metadata_files fs2 run_obj out_dir with
      | .error e => .error e
      | .ok m =>
        match copy_log_files fs2 run_obj out_dir with
        | .error e => .error e
        | .ok l =>
          match copy_interop_files fs2 run_obj.interop_files out_dir with
          | .error e => .error e
          | .ok i =>
            match copy_reads fs2 run_obj out_dir rename with
            | .error e => .error e
            | .ok r => .ok (fs2.addFiles (m ++ l ++ i ++ r), m ++ l ++ i ++ r)

/-! ## Shared lemmas -/

theorem firstFile_eq_none_iff (fs : FS) (l : List FPath) :
    firstFile fs l = none ↔ ∀ p ∈ l, fs.isFile p = false := by
  induction l with
  | nil => simp [firstFile]
  | cons a rest ih =>
    by_cases h : fs.isFile a = true
    · simp [firstFile, h]
    · simp only [Bool.not_eq_true] at h
      simp [firstFile, h, ih]

theorem firstFile_eq_some_iff (fs : FS) (l : List FPath) (p : FPath) :
    firstFile fs l = some p ↔
      ∃ pre post, l = pre ++ p :: post ∧ fs.isFile p = true ∧
        ∀ q ∈ pre, fs.isFile q = false := by
  induction l with
  | nil =>
    constructor
    · intro h; simp [firstFile] at h
    · rintro ⟨pre, post, heq, -, -⟩
      exact absurd heq (by simp)
  | cons a rest ih =>
    by_cases h : fs.isFile a = true
    · simp only [firstFile, h, if_true]
      constructor
      · intro hsome
        injection hsome with h1
        subst h1
        exact ⟨[], rest, rfl, h, by simp⟩
      · rintro ⟨pre, post, heq, hp, hpre⟩
        cases pre with
        | nil =>
          simp only [List.nil_append] at heq
          injection heq with h1 h2
          subst h1
          rfl
        | cons b pre2 =>
          simp only [List.cons_append] at heq
          injection heq with h1 h2
          subst h1
          exact absurd h (by simp [hpre a (List.mem_cons_self a pre2)])
    · have hf : fs.isFile a = false := by simpa using h
      simp only [firstFile, hf, Bool.false_eq_true, if_false]
      rw [ih]
      constructor
      · rintro ⟨pre, post, heq, hp, hpre⟩
        refine ⟨a :: pre, post, by rw [heq, List.cons_append], hp, ?_⟩
        intro q hq
        rcases List.mem_cons.mp hq with rfl | hq2
        · exact hf
        · exact hpre q hq2
      · rintro ⟨pre, post, heq, hp, hpre⟩
        cases pre with
        | nil =>
          simp only [List.nil_append] at heq
          injection heq with h1 h2
          subst h1
          exact absurd hp (by simp [hf])
        | cons b pre2 =>
          simp only [List.cons_append] at heq
          injection heq with h1 h2
          subst h1
          exact ⟨pre2, post, h2, hp, fun q hq => hpre q (List.mem_cons_of_mem _ hq)⟩

theorem get_runinfoxml_eq_firstFile (fs : FS) (run_dir : FPath) :
    get_runinfoxml fs run_dir = firstFile fs (runinfo_locations run_dir) := by
  simp only [get_runinfoxml, runinfo_locations, firstFile]

/-- C1: for every run directory, the sample-sheet lookup returns the first
    candidate of its fixed ordered list that exists as a regular file, and
    fails with the missing-sample-sheet `FileNotFoundError` exactly when no
    candidate exists; the run-info lookup instead returns `none` (no error)
    when none of its candidates exists. -/
theorem C1_metadata_lookup (fs : FS) (run_dir : FPath) :
    (∀ p, get_samplesheet fs run_dir = Except.ok p ↔
        ∃ pre post, possible_samplesheet_locations run_dir = pre ++ p :: post ∧
          fs.isFile p = true ∧ ∀ q ∈ pre, fs.isFile q = false) ∧
    ((∀ p ∈ possible_samplesheet_locations run_dir, fs.isFile p = false) ↔
        get_samplesheet fs run_dir =
          Except.error (.fileNotFound "Could not find SampleSheet in any of the expected locations!")) ∧
    ((∀ p ∈ runinfo_locations run_dir, fs.isFile p = false) ↔
        get_runinfoxml fs run_dir = none) := by
  refine ⟨?_, ?_, ?_⟩
  · intro p
    rw [← firstFile_eq_some_iff]
    unfold get_samplesheet
    cases hf : firstFile fs (possible_samplesheet_locations run_dir) with
    | none => simp
    | some q => simp
  · rw [firstFile_eq_none_iff fs (possible_samplesheet_locations run_dir) |>.symm]
    unfold get_samplesheet
    cases hf : firstFile fs (possible_samplesheet_locations run_dir) with
    | none => simp
    | some q => simp
  · rw [get_runinfoxml_eq_firstFile]
    exact (firstFile_eq_none_iff fs (runinfo_locations run_dir)).symm

/-- Witness for C1 at a concrete filesystem: no candidate exists, the
    sample-sheet lookup raises and the run-info lookup returns `none`. -/
theorem C1_metadata_lookup_witness :
    (∀ p ∈ runinfo_locations ["Runs", "r1"], FS.isFile ⟨[], []⟩ p = false) ∧
      get_runinfoxml ⟨[], []⟩ ["Runs", "r1"] = none :=
  ⟨by decide, (C1_metadata_lookup ⟨[], []⟩ ["Runs", "r1"]).2.2.mp (by decide)⟩

/-! ## C2 -/

/-- The per-line condition of `extract_experiment_name`: the line contains
    `Experiment Name` or `Description` as a substring. -/
def line_matches (l : String) : Bool :=
  strContains l "Experiment Name" || strContains l "Description"

/-- C2 as stated fails: with a line containing `Description` placed before
    the `Experiment Name` line, `extract_experiment_name` returns the second
    field of that earlier line ("alpha"), not the second field "beta" of the
    `Experiment Name` line — even though the returning line does not even
    begin with `Description`. -/
theorem C2_extract_name_cex :
    extract_experiment_name ["X Description,alpha", "Experiment Name,beta"] =
      Except.ok "alpha" ∧
    strContains "Experiment Name,beta" "Experiment Name" = true ∧
    strStartsWith "X Description,alpha" "Description" = false ∧
    ("alpha" : String) ≠ "beta" := by decide

/-- C2 amended: `extract_experiment_name` returns the trimmed second comma
    field of the first line, in file order, containing `Experiment Name` or
    `Description` as a substring (`IndexError` when that line has no comma),
    and raises the descriptive failure exactly when no line contains either. -/
theorem C2_extract_name (lines : List String) :
    (∀ l, lines.find? line_matches = some l →
        extract_experiment_name lines =
          match (pySplitOn l ',').get? 1 with
          | some f => .ok (pyStrip f)
          | none => .error .indexError) ∧
    (lines.find? line_matches = none ↔
        extract_experiment_name lines =
          .error (.exception "Could not find Experiment Name in samplesheet")) := by
  induction lines with
  | nil => simp [extract_experiment_name]
  | cons a rest ih =>
    by_cases hEN : strContains a "Experiment Name" = true
    · have hm : line_matches a = true := by simp [line_matches, hEN]
      constructor
      · intro l hl
        rw [List.find?_cons_of_pos _ hm] at hl
        injection hl with h1
        subst h1
        simp [extract_experiment_name, hEN]
      · rw [List.find?_cons_of_pos _ hm]
        simp only [extract_experiment_name, hEN, if_true]
        constructor
        · intro h; exact absurd h (by simp)
        · intro h
          cases hg : (pySplitOn a ',').get? 1 with
          | none => rw [hg] at h; exact absurd h (by simp)
          | some f => rw [hg] at h; exact absurd h (by simp)
    · have hf1 : strContains a "Experiment Name" = false := by simpa using hEN
      by_cases hD : strContains a "Description" = true
      · have hm : line_matches a = true := by simp [line_matches, hD]
        constructor
        · intro l hl
          rw [List.find?_cons_of_pos _ hm] at hl
          injection hl with h1
          subst h1
          simp [extract_experiment_name, hf1, hD]
        · rw [List.find?_cons_of_pos _ hm]
          simp only [extract_experiment_name, hf1, hD, Bool.false_eq_true, if_false, if_true]
          constructor
          · intro h; exact absurd h (by simp)
          · intro h
            cases hg : (pySplitOn a ',').get? 1 with
            | none => rw [hg] at h; exact absurd h (by simp)
            | some f => rw [hg] at h; exact absurd h (by simp)
      · have hf2 : strContains a "Description" = false := by simpa using hD
        have hm : line_matches a = false := by simp [line_matches, hf1, hf2]
        have hrec : extract_experiment_name (a :: rest) = extract_experiment_name rest := by
          simp [extract_experiment_name, hf1, hf2]
        rw [List.find?_cons_of_neg _ (by simp [hm])]
        rw [hrec]
        exact ih

/-- Witness for C2 at a concrete sample sheet: the `Experiment Name` line is
    the first matching line and its trimmed second field is returned. -/
theorem C2_extract_name_witness :
    (["IEMFileVersion,4", "Experiment Name, run7 "].find? line_matches =
        some "Experiment Name, run7 ") ∧
      extract_experiment_name ["IEMFileVersion,4", "Experiment Name, run7 "] =
        Except.ok "run7" := by
  refine ⟨by decide, ?_⟩
  have h := (C2_extract_name ["IEMFileVersion,4", "Experiment Name, run7 "]).1
    "Experiment Name, run7 " (by decide)
  exact h.trans (by decide)

/-! ## C3 -/

/-- Concrete run for C3: one retained sample directory with no reads at all. -/
def rdC3 : FPath := ["Runs", "FASTQ_c3"]

/-- The retained sample directory of the C3 counterexample. -/
def sdC3 : FPath := rdC3.child "Sample.A"

/-- Filesystem of the C3 counterexample. -/
def fsC3 : FS := ⟨[], [rdC3, sdC3]⟩

/-- C3 as stated fails: a retained sample directory with zero `_R1_` files is
    not omitted from the run's sample collection — `generate_sample_objects`
    keeps it, with both read slots `None`. -/
theorem C3_invalid_sample_kept_cex :
    (fsC3.glob (sdC3.child "Files") (fun n => strContains n "_R1_")).length = 0 ∧
    get_sample_dirs fsC3 rdC3 = [sdC3] ∧
    get_sample_id_dict fsC3 [sdC3] = .ok [(none, ⟨sdC3, none⟩)] ∧
    generate_sample_objects fsC3 none rdC3 [(none, ⟨sdC3, none⟩)] =
      [{ run_dir := rdC3, sample_dir := sdC3, sample_id := none, sample_name := none,
         project_dir := none, r1 := none, r2 := none }] := by decide

/-- C3 amended: a sample directory whose `Files` area holds exactly one
    `_R1_` file and one `_R2_` file yields a sample with both slots filled;
    when the `_R1_` matches are not exactly one, the sample's slots are both
    left `None` — but the sample object itself is always kept, one per
    `sample_id_dict` entry, and construction never fails. -/
theorem C3_sample_pairing (fs : FS) (pd : Option FPath) (rd : FPath) :
    (∀ sd sid sname r1 r2,
        fs.glob (sd.child "Files") (fun n => strContains n "_R1_") = [r1] →
        fs.glob (sd.child "Files") (fun n => strContains n "_R2_") = [r2] →
        fs.isFile r1 = true → fs.isFile r2 = true →
        (mkBaseMountSample fs pd rd sd sid sname).r1 = some r1 ∧
          (mkBaseMountSample fs pd rd sd sid sname).r2 = some r2) ∧
    (∀ sd sid sname,
        (fs.glob (sd.child "Files") (fun n => strContains n "_R1_")).length ≠ 1 →
        (mkBaseMountSample fs pd rd sd sid sname).r1 = none ∧
          (mkBaseMountSample fs pd rd sd sid sname).r2 = none) ∧
    (∀ dict, (generate_sample_objects fs pd rd dict).length = dict.length) := by
  refine ⟨?_, ?_, ?_⟩
  · intro sd sid sname r1 r2 h1 h2 hf1 hf2
    have hv : validate_fastq_in_sample_dir fs (sd.child "Files") = true := by
      simp [validate_fastq_in_sample_dir, h1, h2, hf1, hf2]
    simp [mkBaseMountSample, hv, h1, h2]
  · intro sd sid sname hlen
    have hv : validate_fastq_in_sample_dir fs (sd.child "Files") = false := by
      simp only [validate_fastq_in_sample_dir]
      cases hg : (fs.glob (sd.child "Files") (fun n => strContains n "_R1_")).length == 1 with
      | false => simp [hg]
      | true => exact absurd (by simpa using hg) hlen
    simp [mkBaseMountSample, hv]
  · intro dict
    simp [generate_sample_objects]

/-- A valid paired sample directory, used by the C3 witness. -/
def fsW3 : FS :=
  ⟨[((sdC3.child "Files").child "s_R1_001.fastq.gz", []),
    ((sdC3.child "Files").child "s_R2_001.fastq.gz", [])], []⟩

/-- Witness for C3 at a concrete valid sample: both read slots get filled. -/
theorem C3_sample_pairing_witness :
    (fsW3.glob (sdC3.child "Files") (fun n => strContains n "_R1_") =
        [(sdC3.child "Files").child "s_R1_001.fastq.gz"]) ∧
    (mkBaseMountSample fsW3 none rdC3 sdC3 (some "s") none).r1 =
      some ((sdC3.child "Files").child "s_R1_001.fastq.gz") := by
  refine ⟨by decide, ?_⟩
  exact ((C3_sample_pairing fsW3 none rdC3).1 sdC3 (some "s") none
    ((sdC3.child "Files").child "s_R1_001.fastq.gz")
    ((sdC3.child "Files").child "s_R2_001.fastq.gz")
    (by decide) (by decide) (by decide) (by decide)).1

/-! ## C4 -/

theorem except_bind_ok {α β : Type} (a : α) (f : α → Except PyErr β) :
    (Except.ok a >>= f) = f a := rfl

theorem except_bind_error {α β : Type} (e : PyErr) (f : α → Except PyErr β) :
    ((Except.error e : Except PyErr α) >>= f) = .error e := rfl

theorem foldlM_generate_error (fs : FS) (project_dir : FPath) (bad : FPath) (post : List FPath)
    (e : PyErr) (hbad : mkRun fs bad (some project_dir) none = .error e) :
    ∀ (pre : List FPath) (acc : List RunObj),
      (∀ r ∈ pre, ∃ obj, mkRun fs r (some project_dir) none = .ok obj) →
      List.foldlM (generate_run_step fs project_dir) acc (pre ++ bad :: post) = .error e := by
  intro pre
  induction pre with
  | nil =>
    intro acc _
    simp [List.foldlM_cons, generate_run_step, hbad, except_bind_error]
  | cons a pre2 ih =>
    intro acc hpre
    obtain ⟨obj, hobj⟩ := hpre a (List.mem_cons_self a pre2)
    simp only [List.cons_append, List.foldlM_cons, generate_run_step, hobj, except_bind_ok]
    exact ih _ (fun r hr => hpre r (List.mem_cons_of_mem _ hr))

/-- C4 amended: there is no per-Run exception handling in the project-level
    driver — when one run directory's `BaseMountRun` construction raises, the
    whole `generate_run_objects` and `retrieve_project_contents_from_basemount`
    raise that same error, and the sibling runs after it are never processed. -/
theorem C4_run_failure_propagates (fs : FS) (project_dir out_dir : FPath) (rename : Bool)
    (pre : List FPath) (bad : FPath) (post : List FPath) (e : PyErr)
    (hdirs : get_runs_dirs (fs.addDirs [out_dir]) project_dir = pre ++ bad :: post)
    (hbad : mkRun (fs.addDirs [out_dir]) bad (some project_dir) none = .error e)
    (hpre : ∀ r ∈ pre, ∃ obj, mkRun (fs.addDirs [out_dir]) r (some project_dir) none = .ok obj) :
    generate_run_objects (fs.addDirs [out_dir]) project_dir (pre ++ bad :: post) = .error e ∧
    retrieve_project_contents_from_basemount fs project_dir out_dir rename = .error e := by
  have hgen : generate_run_objects (fs.addDirs [out_dir]) project_dir (pre ++ bad :: post) =
      .error e :=
    foldlM_generate_error _ _ _ _ _ hbad pre [] hpre
  refine ⟨hgen, ?_⟩
  unfold retrieve_project_contents_from_basemount
  simp only [hdirs, hgen]

/-- Project fixture for C4: the first run directory has no sample sheet, the
    second is a well-formed run. -/
def pdC4 : FPath := ["basemount", "Projects", "PRJ4"]

/-- The failing first run directory of the C4 fixture. -/
def rdC4bad : FPath := (pdC4.child "AppSessions.v1").child "FASTQ_bad"

/-- The well-formed second run directory of the C4 fixture. -/
def rdC4good : FPath := (pdC4.child "AppSessions.v1").child "FASTQ_good"

/-- Sample sheet path of the C4 fixture's good run. -/
def ssC4 : FPath := (rdC4good.child "Properties").child "Input.sample-sheet"

/-- Output directory of the C4 fixture. -/
def outC4 : FPath := ["out4"]

/-- Filesystem of the C4 fixture. -/
def fsC4 : FS :=
  ⟨[(ssC4, ["Experiment Name,EXP4", "[Data]", "Sample_ID"])],
   [pdC4, pdC4.child "AppSessions.v1", rdC4bad, rdC4good, rdC4good.child "Properties",
    rdC4good.child "Logs"]⟩

/-- C4 as stated fails: the first run's missing sample sheet aborts the whole
    project retrieval with its error, although the sibling second run on its
    own constructs fine — nothing is caught at the run boundary. -/
theorem C4_no_catch_cex :
    get_runs_dirs (fsC4.addDirs [outC4]) pdC4 = [rdC4bad, rdC4good] ∧
    (mkRun (fsC4.addDirs [outC4]) rdC4good (some pdC4) none).map (fun r => r.run_id) =
      .ok "FASTQ_good" ∧
    retrieve_project_contents_from_basemount fsC4 pdC4 outC4 false =
      .error (.fileNotFound "Could not find SampleSheet in any of the expected locations!") := by
  decide

/-- Witness for the amended C4 on the concrete fixture. -/
theorem C4_run_failure_propagates_witness :
    retrieve_project_contents_from_basemount fsC4 pdC4 outC4 false =
      .error (.fileNotFound "Could not find SampleSheet in any of the expected locations!") :=
  (C4_run_failure_propagates fsC4 pdC4 outC4 false [] rdC4bad [rdC4good]
    (.fileNotFound "Could not find SampleSheet in any of the expected locations!")
    (by decide) (by decide) (by simp)).2

/-! ## C5 -/

theorem pathExists_addDirs (fs : FS) (ds : List FPath) (p : FPath)
    (h : fs.pathExists p = true) : (fs.addDirs ds).pathExists p = true := by
  simp only [FS.pathExists, FS.isFile, FS.isDir, FS.addDirs, Bool.or_eq_true] at h ⊢
  rcases h with h | h
  · exact Or.inl h
  · right
    simp only [List.elem_iff, List.mem_append] at h ⊢
    exact Or.inl h

theorem pathExists_addFiles (fs : FS) (ops : List CopyOp) (p : FPath)
    (h : fs.pathExists p = true) : (fs.addFiles ops).pathExists p = true := by
  simp only [FS.pathExists, FS.isFile, FS.isDir, FS.addFiles, Bool.or_eq_true] at h ⊢
  rcases h with h | h
  · left
    simp only [List.elem_iff, List.map_append, List.mem_append] at h ⊢
    exact Or.inl h
  · exact Or.inr h

theorem pathExists_skeleton (fs : FS) (out_dir p : FPath)
    (h : fs.pathExists p = true) : (create_run_folder_skeleton fs out_dir).pathExists p = true :=
  pathExists_addDirs fs _ p h

theorem skeleton_creates_out_dir (fs : FS) (out_dir : FPath) :
    (create_run_folder_skeleton fs out_dir).pathExists out_dir = true := by
  simp [create_run_folder_skeleton, FS.addDirs, FS.pathExists, FS.isDir, List.elem_iff]

theorem process_run_preserves (fs fs' : FS) (r : RunObj) (out : FPath) (rn : Bool)
    (ops : List CopyOp) (p : FPath)
    (hstep : process_run fs r out rn = .ok (fs', ops))
    (h : fs.pathExists p = true) : fs'.pathExists p = true := by
  unfold process_run at hstep
  by_cases hex : fs.pathExists (out.child r.run_id) = true
  · simp only [hex, if_true] at hstep
    injection hstep with h1
    injection h1 with h2 h3
    exact h2 ▸ h
  · have hex' : fs.pathExists (out.child r.run_id) = false := by simpa using hex
    simp only [hex', Bool.false_eq_true, if_false] at hstep
    cases hm : copy_metadata_files (create_run_folder_skeleton fs (out.child r.run_id)) r
        (out.child r.run_id) with
    | error e => rw [hm] at hstep; exact absurd hstep (by simp)
    | ok m =>
      rw [hm] at hstep
      cases hl : copy_log_files (create_run_folder_skeleton fs (out.child r.run_id)) r
          (out.child r.run_id) with
      | error e => rw [hl] at hstep; exact absurd hstep (by simp)
      | ok l =>
        rw [hl] at hstep
        cases hi : copy_interop_files (create_run_folder_skeleton fs (out.child r.run_id))
            r.interop_files (out.child r.run_id) with
        | error e => rw [hi] at hstep; exact absurd hstep (by simp)
        | ok i =>
          rw [hi] at hstep
          cases hr : copy_reads (create_run_folder_skeleton fs (out.child r.run_id)) r
              (out.child r.run_id) rn with
          | error e => rw [hr] at hstep; exact absurd hstep (by simp)
          | ok rr =>
            rw [hr] at hstep
            injection hstep with h1
            injection h1 with h2 h3
            rw [← h2]
            exact pathExists_addFiles _ _ _ (pathExists_skeleton _ _ _ h)

theorem process_run_creates (fs fs' : FS) (r : RunObj) (out : FPath) (rn : Bool)
    (ops : List CopyOp)
    (hstep : process_run fs r out rn = .ok (fs', ops)) :
    fs'.pathExists (out.child r.run_id) = true := by
  unfold process_run at hstep
  by_cases hex : fs.pathExists (out.child r.run_id) = true
  · simp only [hex, if_true] at hstep
    injection hstep with h1
    injection h1 with h2 h3
    exact h2 ▸ hex
  · have hex' : fs.pathExists (out.child r.run_id) = false := by simpa using hex
    simp only [hex', Bool.false_eq_true, if_false] at hstep
    cases hm : copy_metadata_files (create_run_folder_skeleton fs (out.child r.run_id)) r
        (out.child r.run_id) with
    | error e => rw [hm] at hstep; exact absurd hstep (by simp)
    | ok m =>
      rw [hm] at hstep
      cases hl : copy_log_files (create_run_folder_skeleton fs (out.child r.run_id)) r
          (out.child r.run_id) with
      | error e => rw [hl] at hstep; exact absurd hstep (by simp)
      | ok l =>
        rw [hl] at hstep
        cases hi : copy_interop_files (create_run_folder_skeleton fs (out.child r.run_id))
            r.interop_files (out.child r.run_id) with
        | error e => rw [hi] at hstep; exact absurd hstep (by simp)
        | ok i =>
          rw [hi] at hstep
          cases hr : copy_reads (create_run_folder_skeleton fs (out.child r.run_id)) r
              (out.child r.run_id) rn with
          | error e => rw [hr] at hstep; exact absurd hstep (by simp)
          | ok rr =>
            rw [hr] at hstep
            injection hstep with h1
            injection h1 with h2 h3
            rw [← h2]
            exact pathExists_addFiles _ _ _ (skeleton_creates_out_dir fs _)

theorem foldlM_process_skip (out : FPath) (rn : Bool) :
    ∀ (runs : List RunObj) (fs : FS) (acc : List CopyOp),
      (∀ r ∈ runs, fs.pathExists (out.child r.run_id) = true) →
      List.foldlM (process_step out rn) (fs, acc) runs = .ok (fs, acc) := by
  intro runs
  induction runs with
  | nil => intro fs acc _; rfl
  | cons r rest ih =>
    intro fs acc h
    have hr := h r (List.mem_cons_self r rest)
    have hpr : process_run fs r out rn = .ok (fs, []) := by
      unfold process_run
      simp [hr]
    simp only [List.foldlM_cons, process_step, hpr, except_bind_ok, List.append_nil]
    exact ih fs acc (fun q hq => h q (List.mem_cons_of_mem _ hq))

theorem foldlM_process_preserves (out : FPath) (rn : Bool) :
    ∀ (runs : List RunObj) (fs : FS) (acc : List CopyOp) (fs' : FS) (ops : List CopyOp)
      (p : FPath),
      List.foldlM (process_step out rn) (fs, acc) runs = .ok (fs', ops) →
      fs.pathExists p = true → fs'.pathExists p = true := by
  intro runs
  induction runs with
  | nil =>
    intro fs acc fs' ops p h hp
    have h1 : fs = fs' := by
      have : (Except.ok (fs, acc) : Except PyErr (FS × List CopyOp)) = .ok (fs', ops) := h
      injection this with h2
      exact congrArg Prod.fst h2
    exact h1 ▸ hp
  | cons r rest ih =>
    intro fs acc fs' ops p h hp
    rw [List.foldlM_cons] at h
    cases hpr : process_run fs r out rn with
    | error e =>
      rw [show process_step out rn (fs, acc) r = .error e by
        simp [process_step, hpr]] at h
      exact absurd h (by simp [except_bind_error])
    | ok step =>
      rw [show process_step out rn (fs, acc) r = .ok (step.1, acc ++ step.2) by
        simp [process_step, hpr]] at h
      rw [except_bind_ok] at h
      exact ih step.1 (acc ++ step.2) fs' ops p h
        (process_run_preserves fs step.1 r out rn step.2 p (by rw [hpr]) hp)

theorem foldlM_process_creates (out : FPath) (rn : Bool) :
    ∀ (runs : List RunObj) (fs : FS) (acc : List CopyOp) (fs' : FS) (ops : List CopyOp),
      List.foldlM (process_step out rn) (fs, acc) runs = .ok (fs', ops) →
      ∀ r ∈ runs, fs'.pathExists (out.child r.run_id) = true := by
  intro runs
  induction runs with
  | nil => intro fs acc fs' ops _ r hr; exact absurd hr (List.not_mem_nil r)
  | cons q rest ih =>
    intro fs acc fs' ops h r hr
    rw [List.foldlM_cons] at h
    cases hpr : process_run fs q out rn with
    | error e =>
      rw [show process_step out rn (fs, acc) q = .error e by
        simp [process_step, hpr]] at h
      exact absurd h (by simp [except_bind_error])
    | ok step =>
      rw [show process_step out rn (fs, acc) q = .ok (step.1, acc ++ step.2) by
        simp [process_step, hpr]] at h
      rw [except_bind_ok] at h
      rcases List.mem_cons.mp hr with rfl | hr2
      · exact foldlM_process_preserves out rn rest step.1 (acc ++ step.2) fs' ops _ h
          (process_run_creates fs step.1 r out rn step.2 (by rw [hpr]))
      · exact ih step.1 (acc ++ step.2) fs' ops h r hr2

/-- C5 amended: the already-materialized guard lives only in the project
    loop, and it fires on bare existence of `out_dir / run_id`: when every
    run's output directory exists the loop performs zero copies and leaves
    the filesystem untouched; consequently a second run of the loop after a
    successful first run performs zero copies.  (The single-Run entry point
    has no such guard — see the counterexample.) -/
theorem C5_project_loop_idempotent :
    (∀ (fs : FS) (runs : List RunObj) (out : FPath) (rn : Bool),
        (∀ r ∈ runs, fs.pathExists (out.child r.run_id) = true) →
        process_runs fs runs out rn = .ok (fs, [])) ∧
    (∀ (fs : FS) (runs : List RunObj) (out : FPath) (rn : Bool) (fs' : FS)
        (ops : List CopyOp),
        process_runs fs runs out rn = .ok (fs', ops) →
        process_runs fs' runs out rn = .ok (fs', [])) := by
  constructor
  · intro fs runs out rn h
    exact foldlM_process_skip out rn runs fs [] h
  · intro fs runs out rn fs' ops h
    exact foldlM_process_skip out rn runs fs' []
      (foldlM_process_creates out rn runs fs [] fs' ops h)

/-- Run fixture for C5: a well-formed run and an output directory that
    already exists and is non-empty. -/
def rdC5 : FPath := ["Runs", "FASTQ_c5"]

/-- Sample-sheet path of the C5 fixture. -/
def ssC5 : FPath := (rdC5.child "Properties").child "Input.sample-sheet"

/-- The pre-existing, non-empty output directory of the C5 fixture. -/
def outC5 : FPath := ["out5"]

/-- Filesystem of the C5 fixture. -/
def fsC5 : FS :=
  ⟨[(ssC5, ["Experiment Name,EXP5", "[Data]", "Sample_ID"]),
    (outC5.child "leftover.txt", ["old output"])],
   [rdC5, rdC5.child "Properties", rdC5.child "Logs", outC5]⟩

/-- C5 as stated fails for the single-Run entry point: with `out_dir` already
    existing and non-empty, `retrieve_experiment_contents_from_basemount`
    still performs a file copy (no skip). -/
theorem C5_single_run_no_guard_cex :
    fsC5.pathExists outC5 = true ∧
    fsC5.isFile (outC5.child "leftover.txt") = true ∧
    (retrieve_experiment_contents_from_basemount fsC5 rdC5 outC5 false).map
        (fun st => st.2) =
      .ok [⟨ssC5, outC5.child "SampleSheet.csv"⟩] := by decide

/-- A concrete run object for the C5 witness. -/
def runW5 : RunObj :=
  { run_dir := rdC5, project_dir := none, run_id := "FASTQ_c5",
    log_dir := some (rdC5.child "Logs"), samplesheet := ssC5,
    experiment_name := "FASTQ_c5", samplesheet_df := ⟨["Sample_ID"], []⟩,
    samplesheet_samples := [], interop_dir := none, interop_files := none,
    sample_dirs := [], sample_id_dict := [], sample_objects := [],
    difference_list := ∅, runinfoxml := none, runparametersxml := none,
    stats_json := none, logfiles := some [] }

/-- A filesystem for the C5 witness in which the run output directory
    already exists. -/
def fsW5 : FS := ⟨[], [["out5x"], ["out5x", "FASTQ_c5"]]⟩

/-- Output root of the C5 witness. -/
def outW5 : FPath := ["out5x"]

/-- Witness for the amended C5: the loop over a run whose output directory
    already exists performs zero copies. -/
theorem C5_project_loop_idempotent_witness :
    (∀ r ∈ [runW5], fsW5.pathExists (outW5.child r.run_id) = true) ∧
      process_runs fsW5 [runW5] outW5 false = .ok (fsW5, []) :=
  ⟨by decide, (C5_project_loop_idempotent).1 fsW5 [runW5] outW5 false (by decide)⟩

/-! ## C6, C7 -/

theorem mkRun_ok_fields (fs : FS) (rd : FPath) (pd : Option FPath) (en : Option String)
    (r : RunObj) (hr : mkRun fs rd pd en = .ok r) :
    r.run_id = FPath.name rd ∧
    r.run_dir = rd ∧
    r.samplesheet_df = parse_samplesheet fs r.samplesheet ∧
    Except.ok r.samplesheet_samples = r.samplesheet_df.column "Sample_ID" ∧
    r.sample_dirs = get_sample_dirs fs rd ∧
    get_sample_id_dict fs r.sample_dirs = .ok r.sample_id_dict ∧
    r.sample_objects = generate_sample_objects fs pd rd r.sample_id_dict ∧
    r.difference_list =
      reconcile (r.sample_objects.map (fun s => s.sample_id)).toFinset
        (r.samplesheet_samples.map some).toFinset ∧
    r.runinfoxml = get_runinfoxml fs rd ∧
    r.runparametersxml = get_runparametersxml fs rd := by
  unfold mkRun at hr
  cases hss : get_samplesheet fs rd with
  | error e => rw [hss] at hr; exact absurd hr (by simp)
  | ok ss =>
    simp only [hss] at hr
    cases hen : (match en with
                 | some e => Except.ok e
                 | none => extract_experiment_name (fs.readLines ss)) with
    | error e => rw [hen] at hr; exact absurd hr (by simp)
    | ok ename =>
      simp only [hen] at hr
      cases hcol : (parse_samplesheet fs ss).column "Sample_ID" with
      | error e => rw [hcol] at hr; exact absurd hr (by simp)
      | ok samples =>
        simp only [hcol] at hr
        cases hdict : get_sample_id_dict fs (get_sample_dirs fs rd) with
        | error e => rw [hdict] at hr; exact absurd hr (by simp)
        | ok dict =>
          simp only [hdict] at hr
          injection hr with h1
          subst h1
          refine ⟨rfl, rfl, rfl, ?_, rfl, hdict, rfl, rfl, rfl, rfl⟩
          exact hcol.symm

/-- C6 as stated fails: on a run directory whose raw mount name differs from
    the sample sheet's `Experiment Name` value, `run_id` is the raw name
    ("FASTQ_good"), not the sample-sheet-derived name ("EXP4") that is stored
    separately in `experiment_name`. -/
theorem C6_run_identity_cex :
    (mkRun fsC4 rdC4good (some pdC4) none).map (fun r => (r.run_id, r.experiment_name)) =
      .ok ("FASTQ_good", "EXP4") ∧ ("FASTQ_good" : String) ≠ "EXP4" := by decide

/-- C6 amended: every constructed run's exposed `run_id` is the raw
    mount-assigned directory name (`run_dir.name`), the sample-sheet-derived
    value living only in `experiment_name`; the per-Run output directory the
    project loop creates under `out_dir` is named by that raw `run_id`. -/
theorem C6_run_identity :
    (∀ fs rd pd en r, mkRun fs rd pd en = .ok r → r.run_id = FPath.name rd) ∧
    (∀ fs (r : RunObj) out rn fs' ops,
        process_run fs r out rn = .ok (fs', ops) →
        fs'.pathExists (out.child r.run_id) = true) := by
  constructor
  · intro fs rd pd en r hr
    exact (mkRun_ok_fields fs rd pd en r hr).1
  · intro fs r out rn fs' ops h
    exact process_run_creates fs fs' r out rn ops h

/-- Witness for the amended C6 at a concrete run. -/
theorem C6_run_identity_witness :
    (mkRun fsC5 rdC5 none (some "FASTQ_c5")).map RunObj.run_id = .ok (FPath.name rdC5) := by
  cases hr : mkRun fsC5 rdC5 none (some "FASTQ_c5") with
  | error e =>
    have hok : (mkRun fsC5 rdC5 none (some "FASTQ_c5")).isOk = true := by decide
    rw [hr] at hok
    exact absurd hok (by simp [Except.isOk, Except.toBool])
  | ok r =>
    have h1 := (C6_run_identity).1 fsC5 rdC5 none (some "FASTQ_c5") r hr
    simp [Except.map, h1]

/-- C7: reconciliation is exactly the set difference resolved minus declared
    (with the spec's two worked examples), and the discrepancy is only
    informational — the run's sample collection is the unfiltered
    `generate_sample_objects` output, and materialization does not read the
    discrepancy at all. -/
theorem C7_reconcile_difference :
    (∀ (α : Type) (_i : DecidableEq α) (resolved declared : Finset α) (x : α),
        x ∈ reconcile resolved declared ↔ x ∈ resolved ∧ x ∉ declared) ∧
    reconcile ({"A", "B", "C"} : Finset String) {"A", "B"} = {"C"} ∧
    reconcile ({"A"} : Finset String) {"A"} = ∅ ∧
    (∀ fs rd pd en r, mkRun fs rd pd en = .ok r →
        r.sample_objects = generate_sample_objects fs pd rd r.sample_id_dict ∧
        r.difference_list =
          reconcile (r.sample_objects.map (fun s => s.sample_id)).toFinset
            (r.samplesheet_samples.map some).toFinset) ∧
    (∀ fs (r : RunObj) out rn (d : Finset (Option String)),
        process_run fs r out rn = process_run fs { r with difference_list := d } out rn) := by
  refine ⟨?_, by decide, by decide, ?_, ?_⟩
  · intro α _i resolved declared x
    exact Finset.mem_sdiff
  · intro fs rd pd en r hr
    exact ⟨(mkRun_ok_fields fs rd pd en r hr).2.2.2.2.2.2.1,
      (mkRun_ok_fields fs rd pd en r hr).2.2.2.2.2.2.2.1⟩
  · intro fs r out rn d
    cases r
    rfl

/-- Witness for C7: membership characterization applied at the spec's
    worked example. -/
theorem C7_reconcile_difference_witness :
    "C" ∈ reconcile ({"A", "B", "C"} : Finset String) {"A", "B"} ∧
      "A" ∉ reconcile ({"A", "B", "C"} : Finset String) {"A", "B"} := by
  constructor
  · exact (C7_reconcile_difference.1 String inferInstance {"A", "B", "C"} {"A", "B"} "C").mpr
      (by decide)
  · intro hmem
    have h := (C7_reconcile_difference.1 String inferInstance {"A", "B", "C"} {"A", "B"} "A").mp
      hmem
    exact absurd h (by decide)

/-! ## C8 -/

theorem shutil_if_exists_cases (fs : FS) (src : Option FPath) (dst : FPath) :
    (src = none ∧ shutil_if_exists fs src dst = .ok []) ∨
    (∃ s, src = some s ∧ fs.isFile s = true ∧
        shutil_if_exists fs src dst = .ok [⟨s, dst⟩]) ∨
    (∃ s, src = some s ∧ fs.isFile s = false ∧ fs.isDir s = true ∧
        shutil_if_exists fs src dst = .error .isADirectory) ∨
    (∃ s, src = some s ∧ fs.isFile s = false ∧ fs.isDir s = false ∧
        shutil_if_exists fs src dst = .ok []) := by
  cases src with
  | none => exact Or.inl ⟨rfl, rfl⟩
  | some s =>
    by_cases hf : fs.isFile s = true
    · refine Or.inr (Or.inl ⟨s, rfl, hf, ?_⟩)
      simp [shutil_if_exists, shutil_copy, hf]
    · have hf' : fs.isFile s = false := by simpa using hf
      by_cases hd : fs.isDir s = true
      · refine Or.inr (Or.inr (Or.inl ⟨s, rfl, hf', hd, ?_⟩))
        simp [shutil_if_exists, shutil_copy, hf', hd]
      · have hd' : fs.isDir s = false := by simpa using hd
        refine Or.inr (Or.inr (Or.inr ⟨s, rfl, hf', hd', ?_⟩))
        simp [shutil_if_exists, shutil_copy, hf', hd']

/-- Helper: a successful `shutil_if_exists` only ever copies to the given
    destination. -/
theorem shutil_if_exists_ok_dst (fs : FS) (src : Option FPath) (dst : FPath)
    (ops : List CopyOp) (h : shutil_if_exists fs src dst = .ok ops) :
    ∀ op ∈ ops, op.dst = dst := by
  rcases shutil_if_exists_cases fs src dst with ⟨-, he⟩ | ⟨s, -, -, he⟩ | ⟨s, -, -, -, he⟩ |
    ⟨s, -, -, -, he⟩
  · rw [he] at h
    injection h with h1
    subst h1
    intro op hop
    exact absurd hop (List.not_mem_nil op)
  · rw [he] at h
    injection h with h1
    subst h1
    intro op hop
    rcases List.mem_cons.mp hop with rfl | hop2
    · rfl
    · exact absurd hop2 (List.not_mem_nil op)
  · rw [he] at h
    exact absurd h (by simp)
  · rw [he] at h
    injection h with h1
    subst h1
    intro op hop
    exact absurd hop (List.not_mem_nil op)

/-- Helper: `shutil_if_exists` can only fail on a directory-shaped source,
    never on an absent one. -/
theorem shutil_if_exists_err (fs : FS) (src : Option FPath) (dst : FPath)
    (e : PyErr) (h : shutil_if_exists fs src dst = .error e) : e = .isADirectory := by
  rcases shutil_if_exists_cases fs src dst with ⟨-, he⟩ | ⟨s, -, -, he⟩ | ⟨s, -, -, -, he⟩ |
    ⟨s, -, -, -, he⟩ <;> rw [he] at h
  · exact absurd h (by simp)
  · exact absurd h (by simp)
  · injection h with h1
    exact h1.symm
  · exact absurd h (by simp)

/-- Helper: a present regular-file source is copied to the destination. -/
theorem shutil_if_exists_file (fs : FS) (s : FPath) (dst : FPath)
    (hf : fs.isFile s = true) :
    shutil_if_exists fs (some s) dst = .ok [⟨s, dst⟩] := by
  simp [shutil_if_exists, shutil_copy, hf]

/-- Run fixture for C8: a run whose `RunParameters.xml` exists in a known
    candidate location. -/
def rdC8 : FPath := ["Runs", "FASTQ_c8"]

/-- Sample-sheet path of the C8 fixture. -/
def ssC8 : FPath := (rdC8.child "Properties").child "Input.sample-sheet"

/-- Output directory of the C8 fixture. -/
def outC8 : FPath := ["out8"]

/-- Filesystem of the C8 fixture. -/
def fsC8 : FS :=
  ⟨[(ssC8, ["Experiment Name,EXP8", "[Data]", "Sample_ID"]),
    ((rdC8.child "Files").child "RunParameters.xml", ["xml"])],
   [rdC8, rdC8.child "Properties", rdC8.child "Logs", rdC8.child "Files"]⟩

/-- C8 as stated fails: the run-parameters artifact is located by the run
    constructor, yet `copy_metadata_files` never copies it — its fixed table
    holds only the sample sheet, run-info and stats entries, so the only
    destination produced here is `SampleSheet.csv`. -/
theorem C8_runparameters_never_copied_cex :
    (mkRun fsC8 rdC8 none (some "EXP8")).map (fun r => r.runparametersxml) =
      .ok (some ((rdC8.child "Files").child "RunParameters.xml")) ∧
    ((mkRun fsC8 rdC8 none (some "EXP8")).bind
        (fun r => copy_metadata_files fsC8 r outC8)).map (fun ops => ops.map CopyOp.dst) =
      .ok [outC8.child "SampleSheet.csv"] := by decide

/-- C8 amended: `copy_metadata_files` copies only to the three canonical
    destinations `SampleSheet.csv`, `RunInfo.xml` and `Stats.json` (never
    `RunParameters.xml`); each of the sample sheet and the located run-info
    is copied to its canonical name when present as a file; an absent
    artifact is skipped silently — an error can only arise from a
    directory-shaped source, never from absence. -/
theorem C8_metadata_copies (fs : FS) (run_obj : RunObj) (out_dir : FPath) :
    (∀ ops, copy_metadata_files fs run_obj out_dir = .ok ops →
        ∀ op ∈ ops, op.dst = out_dir.child "SampleSheet.csv" ∨
          op.dst = out_dir.child "RunInfo.xml" ∨ op.dst = out_dir.child "Stats.json") ∧
    (∀ ops, copy_metadata_files fs run_obj out_dir = .ok ops →
        (fs.isFile run_obj.samplesheet = true →
            (⟨run_obj.samplesheet, out_dir.child "SampleSheet.csv"⟩ : CopyOp) ∈ ops) ∧
        (∀ ri, run_obj.runinfoxml = some ri → fs.isFile ri = true →
            (⟨ri, out_dir.child "RunInfo.xml"⟩ : CopyOp) ∈ ops)) ∧
    (∀ e, copy_metadata_files fs run_obj out_dir = .error e → e = .isADirectory) := by
  refine ⟨?_, ?_, ?_⟩
  · intro ops h op hop
    unfold copy_metadata_files at h
    cases ha : shutil_if_exists fs (some run_obj.samplesheet) (out_dir.child "SampleSheet.csv") with
    | error e => rw [ha] at h; exact absurd h (by simp)
    | ok a =>
      rw [ha] at h
      cases hb : shutil_if_exists fs run_obj.runinfoxml (out_dir.child "RunInfo.xml") with
      | error e => rw [hb] at h; exact absurd h (by simp)
      | ok b =>
        rw [hb] at h
        cases hc : shutil_if_exists fs run_obj.stats_json (out_dir.child "Stats.json") with
        | error e => rw [hc] at h; exact absurd h (by simp)
        | ok c =>
          rw [hc] at h
          injection h with h1
          subst h1
          rcases List.mem_append.mp hop with hab | hcc
          · rcases List.mem_append.mp hab with haa | hbb
            · exact Or.inl (shutil_if_exists_ok_dst fs _ _ a ha op haa)
            · exact Or.inr (Or.inl (shutil_if_exists_ok_dst fs _ _ b hb op hbb))
          · exact Or.inr (Or.inr (shutil_if_exists_ok_dst fs _ _ c hc op hcc))
  · intro ops h
    unfold copy_metadata_files at h
    cases ha : shutil_if_exists fs (some run_obj.samplesheet) (out_dir.child "SampleSheet.csv") with
    | error e => rw [ha] at h; exact absurd h (by simp)
    | ok a =>
      rw [ha] at h
      cases hb : shutil_if_exists fs run_obj.runinfoxml (out_dir.child "RunInfo.xml") with
      | error e => rw [hb] at h; exact absurd h (by simp)
      | ok b =>
        rw [hb] at h
        cases hc : shutil_if_exists fs run_obj.stats_json (out_dir.child "Stats.json") with
        | error e => rw [hc] at h; exact absurd h (by simp)
        | ok c =>
          rw [hc] at h
          injection h with h1
          subst h1
          constructor
          · intro hf
            have : a = [⟨run_obj.samplesheet, out_dir.child "SampleSheet.csv"⟩] := by
              have := shutil_if_exists_file fs run_obj.samplesheet
                (out_dir.child "SampleSheet.csv") hf
              rw [this] at ha
              injection ha with h2
              exact h2.symm
            subst this
            exact List.mem_append.mpr (Or.inl (List.mem_append.mpr (Or.inl
              (List.mem_cons_self _ _))))
          · intro ri hri hf
            have : b = [⟨ri, out_dir.child "RunInfo.xml"⟩] := by
              have hb2 := hb
              rw [hri] at hb2
              rw [shutil_if_exists_file fs ri (out_dir.child "RunInfo.xml") hf] at hb2
              injection hb2 with h2
              exact h2.symm
            subst this
            exact List.mem_append.mpr (Or.inl (List.mem_append.mpr (Or.inr
              (List.mem_cons_self _ _))))
  · intro e h
    unfold copy_metadata_files at h
    cases ha : shutil_if_exists fs (some run_obj.samplesheet) (out_dir.child "SampleSheet.csv") with
    | error ea =>
      rw [ha] at h
      injection h with h1
      exact h1 ▸ shutil_if_exists_err fs _ _ ea ha
    | ok a =>
      rw [ha] at h
      cases hb : shutil_if_exists fs run_obj.runinfoxml (out_dir.child "RunInfo.xml") with
      | error eb =>
        rw [hb] at h
        injection h with h1
        exact h1 ▸ shutil_if_exists_err fs _ _ eb hb
      | ok b =>
        rw [hb] at h
        cases hc : shutil_if_exists fs run_obj.stats_json (out_dir.child "Stats.json") with
        | error ec =>
          rw [hc] at h
          injection h with h1
          exact h1 ▸ shutil_if_exists_err fs _ _ ec hc
        | ok c =>
          rw [hc] at h
          exact absurd h (by simp)

/-- A concrete run object for the C8 witness. -/
def runW8 : RunObj :=
  { run_dir := rdC8, project_dir := none, run_id := "FASTQ_c8",
    log_dir := some (rdC8.child "Logs"), samplesheet := ssC8,
    experiment_name := "EXP8", samplesheet_df := ⟨["Sample_ID"], []⟩,
    samplesheet_samples := [], interop_dir := none, interop_files := none,
    sample_dirs := [], sample_id_dict := [], sample_objects := [],
    difference_list := ∅, runinfoxml := none, runparametersxml := none,
    stats_json := none, logfiles := some [] }

/-- Witness for the amended C8 at a concrete run: the present sample sheet
    lands at its canonical destination. -/
theorem C8_metadata_copies_witness :
    FS.isFile fsC8 ssC8 = true ∧
      (⟨ssC8, outC8.child "SampleSheet.csv"⟩ : CopyOp) ∈
        [(⟨ssC8, outC8.child "SampleSheet.csv"⟩ : CopyOp)] :=
  ⟨by decide,
    ((C8_metadata_copies fsC8 runW8 outC8).2.1
      [(⟨ssC8, outC8.child "SampleSheet.csv"⟩ : CopyOp)] (by decide)).1 (by decide)⟩

/-! ## C9 -/

/-- Run fixture for C9: two retained sample directories with no
    `SampleProperties` record. -/
def rdC9 : FPath := ["Runs", "FASTQ_c9"]

/-- First recordless sample directory of the C9 fixture. -/
def d1C9 : FPath := rdC9.child "Sample.X1"

/-- Second recordless sample directory of the C9 fixture. -/
def d2C9 : FPath := rdC9.child "Sample.X2"

/-- Filesystem of the C9 fixture. -/
def fsC9 : FS := ⟨[], [rdC9, d1C9, d2C9]⟩

/-- C9 as stated fails: in `basemountretrieve.py` two retained sample
    directories with no properties record both get the `None` id — there is
    no directory-name splitting fallback — and they collapse onto the single
    `None` key, so retained directories yield neither non-null nor distinct
    identifiers. -/
theorem C9_null_id_cex :
    get_sample_dirs fsC9 rdC9 = [d1C9, d2C9] ∧
    get_sample_id_dict fsC9 [d1C9, d2C9] = .ok [(none, ⟨d2C9, none⟩)] := by decide

/-- C9 amended: a retained directory with a `SampleProperties` file yields
    the id/name accumulated from its `SampleId:`/`Name:` lines; one with no
    record yields the `None` id (no name-derived fallback in
    basemountretrieve.py); the directory-name-splitting derivation
    (`name.split(".", 2)[2]`) is the v2 rewrite's rule, applied there
    unconditionally, with an `IndexError` when the name has too few
    components. -/
theorem C9_sample_identity :
    (∀ (fs : FS) (d : FPath) (sid sname : Option String),
        fs.isFile (d.child "SampleProperties") = true →
        (fs.readLines (d.child "SampleProperties")).foldlM propsLineStep (none, none) =
          .ok (sid, sname) →
        get_sample_id_dict fs [d] = .ok [(sid, ⟨d, sname⟩)]) ∧
    (∀ (fs : FS) (d : FPath),
        fs.isFile (d.child "SampleProperties") = false →
        fs.isDir (d.child "SampleProperties") = false →
        get_sample_id_dict fs [d] = .ok [(none, ⟨d, none⟩)]) ∧
    ((["SampleId: S1", "Name: N1"] : List String).foldlM propsLineStep (none, none) =
        .ok (some "S1", some "N1")) ∧
    (∀ (d : FPath) (a b c : String), pySplit (FPath.name d) '.' 2 = [a, b, c] →
        get_sample_id_dict_v2 [d] = .ok [(c, d)]) ∧
    (∀ (d : FPath), (pySplit (FPath.name d) '.' 2).get? 2 = none →
        get_sample_id_dict_v2 [d] = .error .indexError) := by
  refine ⟨?_, ?_, by decide, ?_, ?_⟩
  · intro fs d sid sname hf hfold
    simp [get_sample_id_dict, List.foldlM, hf, hfold, dictInsert]
  · intro fs d hf hd
    simp only [get_sample_id_dict, List.foldlM, hf, hd, Bool.false_eq_true, if_false]
    rfl
  · intro d a b c hsplit
    simp only [get_sample_id_dict_v2, List.foldlM, hsplit]
    rfl
  · intro d hnone
    rw [List.get?_eq_getElem?] at hnone
    simp [get_sample_id_dict_v2, List.foldlM, hnone]

/-- A sample directory with a properties record, for the C9 witness. -/
def dW9 : FPath := ["Runs", "FASTQ_c9", "Sample.1.S9"]

/-- Filesystem of the C9 witness. -/
def fsW9 : FS := ⟨[(dW9.child "SampleProperties", ["SampleId: S9", "Name: N9"])], [dW9]⟩

/-- Witness for the amended C9: a directory with a record yields the parsed
    id and name. -/
theorem C9_sample_identity_witness :
    ((fsW9.readLines (dW9.child "SampleProperties")).foldlM propsLineStep (none, none) =
        .ok (some "S9", some "N9")) ∧
      get_sample_id_dict fsW9 [dW9] = .ok [(some "S9", ⟨dW9, some "N9"⟩)] :=
  ⟨by decide,
    (C9_sample_identity).1 fsW9 dW9 (some "S9") (some "N9") (by decide) (by decide)⟩

/-! ## C10 -/

theorem skiprowsAux_no_marker_append (marker : String) (tail : List String)
    (hm : strContains marker "[Data]" = true) :
    ∀ (pre : List String) (c : Nat), (∀ l ∈ pre, strContains l "[Data]" = false) →
      skiprowsAux (pre ++ marker :: tail) c = c + pre.length := by
  intro pre
  induction pre with
  | nil => intro c _; simp [skiprowsAux, hm]
  | cons a pre2 ih =>
    intro c hpre
    have ha : strContains a "[Data]" = false := hpre a (List.mem_cons_self a pre2)
    have hstep : skiprowsAux ((a :: pre2) ++ marker :: tail) c =
        skiprowsAux (pre2 ++ marker :: tail) (c + 1) := by
      simp [skiprowsAux, ha]
    rw [hstep, ih (c + 1) (fun l hl => hpre l (List.mem_cons_of_mem _ hl))]
    simp only [List.length_cons]
    omega

/-- C10: when the literal `[Data]` marker first occurs on (1-based) line
    `k = pre.length + 1`, `parse_samplesheet` skips exactly the first `k`
    lines, so the parsed table's header is the line immediately after the
    marker and its rows the remaining lines; and the constructed run's
    declared sample ids are exactly the `Sample_ID` column of that table. -/
theorem C10_data_section (pre : List String) (marker hdr : String) (rest : List String)
    (hpre : ∀ l ∈ pre, strContains l "[Data]" = false)
    (hm : strContains marker "[Data]" = true) :
    samplesheet_skiprows (pre ++ marker :: hdr :: rest) = pre.length + 1 ∧
    read_csv (pre ++ marker :: hdr :: rest) (pre.length + 1) =
      ⟨pySplitOn hdr ',', rest.map (fun r => pySplitOn r ',')⟩ ∧
    (∀ fs rd pd en r, mkRun fs rd pd en = .ok r →
        r.samplesheet_df = parse_samplesheet fs r.samplesheet ∧
        Except.ok r.samplesheet_samples = r.samplesheet_df.column "Sample_ID") := by
  refine ⟨?_, ?_, ?_⟩
  · unfold samplesheet_skiprows
    rw [skiprowsAux_no_marker_append marker (hdr :: rest) hm pre 1 hpre]
    omega
  · unfold read_csv
    have hdrop : (pre ++ marker :: hdr :: rest).drop (pre.length + 1) = hdr :: rest := by
      have hsplit2 : pre ++ marker :: hdr :: rest = (pre ++ [marker]) ++ hdr :: rest := by
        simp
      rw [hsplit2]
      have hlen : (pre ++ [marker]).length = pre.length + 1 := by simp
      rw [← hlen, List.drop_left]
    rw [hdrop]
  · intro fs rd pd en r hr
    exact ⟨(mkRun_ok_fields fs rd pd en r hr).2.2.1,
      (mkRun_ok_fields fs rd pd en r hr).2.2.2.1⟩

/-- Witness for C10 at a concrete sample sheet: the marker sits on line 3,
    exactly 3 lines are skipped and the header is the following line. -/
theorem C10_data_section_witness :
    (∀ l ∈ ["[Header]", "Experiment Name,E"], strContains l "[Data]" = false) ∧
      samplesheet_skiprows
        ["[Header]", "Experiment Name,E", "[Data]", "Sample_ID,Sample_Name", "S1,N1"] = 3 :=
  ⟨by decide,
    (C10_data_section ["[Header]", "Experiment Name,E"] "[Data]" "Sample_ID,Sample_Name"
      ["S1,N1"] (by decide) (by decide)).1⟩
